import Mathlib

/-!
Shallow embedding of `src/set-asus-battery.py`, a tkinter GUI that reads and
writes the ASUS battery charge threshold sysfs control file.  Pure logic
(validation, label rendering, command construction) is embedded as Lean
functions; the filesystem and the subprocess outcome are passed in explicitly,
and each handler returns a record of its observable effects (messageboxes
shown, external commands spawned, whether a refresh read happened).
Character-level Python semantics (`int()`, `str.strip()`) are modelled over
the ASCII/Latin-1 whitespace set; other Unicode code points are outside the
model's scope.
-/

/-- Whitespace characters stripped by Python `int()` and `str.strip()`:
space, tab, newline, carriage return, vertical tab, form feed, and the
separator controls 0x1C-0x1F plus 0x85. -/
def isPySpace (c : Char) : Bool :=
  c == ' ' || c == '\t' || c == '\n' || c == '\r' ||
    c == Char.ofNat 11 || c == Char.ofNat 12 ||
    c == Char.ofNat 28 || c == Char.ofNat 29 || c == Char.ofNat 30 ||
    c == Char.ofNat 31 || c == Char.ofNat 133

/-- Python `str.strip()` on a character list: drop leading and trailing
whitespace. -/
def pyStrip (l : List Char) : List Char :=
  ((l.dropWhile isPySpace).reverse.dropWhile isPySpace).reverse

/-- Python `str.strip()` on strings. -/
def pyStripStr (s : String) : String :=
  ⟨pyStrip s.data⟩

/-- Digit run after a first digit has been consumed.  Python `int()` allows a
single underscore strictly between two digits (`1_000`); leading, trailing or
doubled underscores are rejected. -/
def digitsCore (acc : Nat) : List Char → Option Nat
  | [] => some acc
  | '_' :: c :: rest =>
      if c.isDigit then digitsCore (10 * acc + (c.toNat - 48)) rest else none
  | ['_'] => none
  | c :: rest =>
      if c.isDigit then digitsCore (10 * acc + (c.toNat - 48)) rest else none

/-- Parse a nonempty unsigned digit sequence with Python underscore rules:
the first character must be a digit (so a leading underscore fails). -/
def digitsStart : List Char → Option Nat
  | [] => none
  | c :: rest => if c.isDigit then digitsCore (c.toNat - 48) rest else none

/-- Sign handling of Python `int()`: at most one leading plus or minus. -/
def parseSigned : List Char → Option Int
  | '+' :: rest => (digitsStart rest).map (fun n => (n : Int))
  | '-' :: rest => (digitsStart rest).map (fun n => -(n : Int))
  | l => (digitsStart l).map (fun n => (n : Int))

/-- Python `int(s)` for base 10: strip surrounding whitespace, then an
optional sign followed by underscore-grouped decimal digits; `none` models a
raised `ValueError`. -/
def pythonInt (s : String) : Option Int :=
  parseSigned (pyStrip s.data)

/-- The validation test guarding the write in `set_new_threshold`:
`int(new_value)` succeeds and the value lies in `[20, 100]`. -/
def pyValidB (s : String) : Bool :=
  match pythonInt s with
  | some v => decide (20 ≤ v) && decide (v ≤ 100)
  | none => false

/-- Value of a plain digit list, most significant first. -/
def digitsVal (l : List Char) : Nat :=
  l.foldl (fun a c => 10 * a + (c.toNat - 48)) 0

/-- Spec-side parser: succeeds exactly when the string matches the anchored
pattern of an optional minus sign followed by one or more ASCII digits, with
no extraneous characters (no surrounding whitespace, no leading plus sign, no
digit separators). -/
def specParse (s : String) : Option Int :=
  match s.data with
  | '-' :: rest =>
      if !rest.isEmpty && rest.all Char.isDigit then
        some (-(digitsVal rest : Int))
      else none
  | l =>
      if !l.isEmpty && l.all Char.isDigit then
        some ((digitsVal l : Int))
      else none

/-- Spec-side validation: the spec-side parse succeeds with a value in
`[20, 100]`. -/
def specValidateB (s : String) : Bool :=
  match specParse s with
  | some v => decide (20 ≤ v) && decide (v ≤ 100)
  | none => false

/-- Kinds of tkinter messagebox notifications the script shows. -/
inductive Msg where
  | info (title body : String)
  | warning (title body : String)
  | error (title body : String)
  deriving DecidableEq

/-- Outcome of `subprocess.run(command, check=True, capture_output=True,
text=True)`: normal exit, `CalledProcessError` carrying the captured stderr
text, `FileNotFoundError` when the executable is absent, or any other
exception. -/
inductive SubprocResult where
  | success
  | calledProcessError (stderr : String)
  | fileNotFound
  | otherError (msg : String)
  deriving DecidableEq

/-- Observable effects of one run of `set_new_threshold`: messageboxes shown,
external commands spawned (each an argv list), and whether the displayed
value was refreshed via `load_current_threshold`. -/
structure WriteEffects where
  messages : List Msg
  commands : List (List String)
  refreshed : Bool
  deriving DecidableEq

/-- Embedding of `Application.set_new_threshold` (lines 68-117): validate the
entry text with `int()` and the range check, bail out with a notification when
validation or the path is missing, otherwise spawn exactly one
`pkexec /bin/bash -c "echo <value> > <path>"` command and report its outcome. -/
def set_new_threshold (entry : String) (battery_path : Option String)
    (runResult : SubprocResult) : WriteEffects :=
  match pythonInt entry with
  | none =>
      ⟨[.warning "Invalid Input" "Please enter a whole number between 20 and 100."],
        [], false⟩
  | some val_int =>
      if 20 ≤ val_int ∧ val_int ≤ 100 then
        match battery_path with
        | none =>
            ⟨[.error "Error" "Cannot set threshold because battery path is not defined."],
              [], false⟩
        | some p =>
            let command := ["pkexec", "/bin/bash", "-c",
              "echo " ++ toString val_int ++ " > " ++ p]
            match runResult with
            | .success =>
                ⟨[.info "Success"
                    ("Battery charge threshold successfully set to "
                      ++ toString val_int ++ "%.")],
                  [command], true⟩
            | .calledProcessError stderr =>
                let error_message :=
                  if stderr ≠ "" then pyStripStr stderr
                  else "The command was rejected or failed."
                ⟨[.error "Execution Failed"
                    ("Failed to set the new threshold.\n\nReason: "
                      ++ error_message
                      ++ "\n\nPlease ensure you have administrative privileges and entered the correct password.")],
                  [command], false⟩
            | .fileNotFound =>
                ⟨[.error "Error"
                    "The 'pkexec' command was not found.\nPlease ensure Polkit is installed on your system."],
                  [command], false⟩
            | .otherError msg =>
                ⟨[.error "An Unexpected Error Occurred" ("Details: " ++ msg)],
                  [command], false⟩
      else
        ⟨[.warning "Invalid Input" "Please enter a whole number between 20 and 100."],
          [], false⟩

/-- The glob pattern the script searches. -/
def CHARGE_THRESHOLD_FILE_PATH : String :=
  "/sys/class/power_supply/BAT*/charge_control_end_threshold"

/-- Result of `Application.find_battery_path`: the resolved path (`none` on
failure), messageboxes shown, and whether `master.quit()` was called. -/
structure ResolveResult where
  battery_path : Option String
  messages : List Msg
  quitCalled : Bool
  deriving DecidableEq

/-- Embedding of `Application.find_battery_path` (lines 28-47), over the list
returned by `glob.glob(CHARGE_THRESHOLD_FILE_PATH)`: an empty result shows a
fatal error and quits, otherwise the first match is returned. -/
def find_battery_path (globResult : List String) : ResolveResult :=
  match globResult with
  | [] =>
      ⟨none,
        [.error "Error"
          ("Could not find the battery charge control file.\nSearched for: "
            ++ CHARGE_THRESHOLD_FILE_PATH
            ++ "\n\nThis script may not be compatible with your device.")],
        true⟩
  | p :: _ => ⟨some p, [], false⟩

/-- What the filesystem yields for a path in `load_current_threshold`:
`absent` models `os.path.exists(path)` returning false; `content` a
successful `open(...).read()`; `ioError` an `IOError`/`PermissionError`
raised on open or read; `otherError` any other exception. -/
inductive FileRead where
  | absent
  | content (s : String)
  | ioError (msg : String)
  | otherError (msg : String)

/-- Embedding of `Application.load_current_threshold` (lines 49-65): returns
the label the UI displays and whether a filesystem read (an `open`) was
attempted.  An empty-string path is falsy in Python, hence also Not Found. -/
def load_current_threshold (battery_path : Option String)
    (fs : String → FileRead) : String × Bool :=
  match battery_path with
  | none => ("Current value: Not Found", false)
  | some p =>
      if p = "" then ("Current value: Not Found", false)
      else
        match fs p with
        | .absent => ("Current value: Not Found", false)
        | .content s => ("Current value: " ++ pyStripStr s ++ "%", true)
        | .ioError _ => ("Current value: Read Error", true)
        | .otherError _ => ("Current value: Unknown Error", true)

/-- Startup state of `Application.__init__`: `find_battery_path`, then
`create_widgets` (pure UI construction, no modelled effects), then
`load_current_threshold`. -/
structure StartupState where
  battery_path : Option String
  messages : List Msg
  quitCalled : Bool
  label : String
  readAttempted : Bool

/-- The startup sequence of `Application.__init__` (lines 21-26). -/
def app_startup (globResult : List String) (fs : String → FileRead) :
    StartupState :=
  let r := find_battery_path globResult
  let lc := load_current_threshold r.battery_path fs
  ⟨r.battery_path, r.messages, r.quitCalled, lc.1, lc.2⟩

example : pythonInt " 50 " = some 50 := by decide
example : pythonInt "+50" = some 50 := by decide
example : pythonInt "5_0" = some 50 := by decide
example : pythonInt "5__0" = none := by decide
example : pythonInt "_50" = none := by decide
example : pythonInt "50_" = none := by decide
example : pythonInt "-21" = some (-21) := by decide
example : pythonInt "abc" = none := by decide
example : pythonInt "" = none := by decide
example : pythonInt "+" = none := by decide
example : specValidateB "100" = true := by decide
example : specValidateB "19" = false := by decide
example : specValidateB "101" = false := by decide
example : specValidateB " 50 " = false := by decide
example : toString (50 : Int) = "50" := by decide
example : pyStripStr "80\n" = "80" := by decide

/-- Helper: with no battery path, `set_new_threshold` never spawns a command. -/
theorem commands_nil_of_no_path (entry : String) (outcome : SubprocResult) :
    (set_new_threshold entry none outcome).commands = [] := by
  rcases h : pythonInt entry with _ | v
  · simp [set_new_threshold, h]
  · by_cases hv : 20 ≤ v ∧ v ≤ 100 <;> simp [set_new_threshold, h, hv]

/-- C2: an empty glob result at startup shows a fatal error, calls
`master.quit()`, performs no filesystem read during startup, and any later
write action with the resulting `none` path spawns no command; moreover the
quit flag is raised exactly when the glob result is empty, so path
resolution failure is the only modelled error that ends the session. -/
theorem C2_fatal_no_path (globResult : List String) (fs : String → FileRead)
    (entry : String) (outcome : SubprocResult) :
    ((app_startup [] fs).quitCalled = true
      ∧ (∃ t b, Msg.error t b ∈ (app_startup [] fs).messages)
      ∧ (app_startup [] fs).readAttempted = false
      ∧ (set_new_threshold entry (app_startup [] fs).battery_path outcome).commands = [])
    ∧ ((app_startup globResult fs).quitCalled = true ↔ globResult = []) := by
  refine ⟨⟨rfl, ⟨"Error", _, List.mem_singleton.mpr rfl⟩, rfl, ?_⟩, ?_⟩
  · exact commands_nil_of_no_path entry outcome
  · cases globResult with
    | nil => simp [app_startup, find_battery_path]
    | cons p rest => simp [app_startup, find_battery_path]

/-- C8: with at least one glob match, `find_battery_path` returns the first
match in the filesystem-returned ordering, whatever the number of matches. -/
theorem C8_first_match (paths : List String) (h : paths ≠ []) :
    (find_battery_path paths).battery_path = some (paths.head h) := by
  cases paths with
  | nil => exact absurd rfl h
  | cons p rest => rfl

/-- C8 witness: concrete two-match glob result resolves to the first entry. -/
theorem C8_first_match_witness :
    (find_battery_path
        ["/sys/class/power_supply/BAT0/charge_control_end_threshold",
          "/sys/class/power_supply/BAT1/charge_control_end_threshold"]).battery_path
      = some "/sys/class/power_supply/BAT0/charge_control_end_threshold" :=
  C8_first_match
    ["/sys/class/power_supply/BAT0/charge_control_end_threshold",
      "/sys/class/power_supply/BAT1/charge_control_end_threshold"] (by decide)

/-- C3: for a validated value and a present path, the writer spawns exactly
one command, `pkexec /bin/bash -c "echo <value> > <path>"`, with the value
rendered in decimal. -/
theorem C3_single_command (entry : String) (v : Int) (p : String)
    (outcome : SubprocResult) (hparse : pythonInt entry = some v)
    (hlo : 20 ≤ v) (hhi : v ≤ 100) :
    (set_new_threshold entry (some p) outcome).commands
      = [["pkexec", "/bin/bash", "-c", "echo " ++ toString v ++ " > " ++ p]] := by
  have hv : 20 ≤ v ∧ v ≤ 100 := ⟨hlo, hhi⟩
  cases outcome <;> simp [set_new_threshold, hparse, hv]

/-- C3 witness: writing 50 to the BAT0 control path spawns the expected
single argv. -/
theorem C3_single_command_witness :
    (set_new_threshold "50"
        (some "/sys/class/power_supply/BAT0/charge_control_end_threshold")
        SubprocResult.success).commands
      = [["pkexec", "/bin/bash", "-c",
          "echo 50 > /sys/class/power_supply/BAT0/charge_control_end_threshold"]] := by
  rw [C3_single_command "50" 50
    "/sys/class/power_supply/BAT0/charge_control_end_threshold"
    SubprocResult.success (by decide) (by decide) (by decide)]
  decide

/-- C4: when the elevation command fails with stderr "Request dismissed", the
handler shows an Execution Failed error carrying that stderr text and does
not refresh the displayed value. -/
theorem C4_rejected_no_refresh (entry : String) (v : Int) (p : String)
    (hparse : pythonInt entry = some v) (hlo : 20 ≤ v) (hhi : v ≤ 100) :
    (set_new_threshold entry (some p)
        (SubprocResult.calledProcessError "Request dismissed")).refreshed = false
      ∧ (set_new_threshold entry (some p)
          (SubprocResult.calledProcessError "Request dismissed")).messages
        = [Msg.error "Execution Failed"
            "Failed to set the new threshold.\n\nReason: Request dismissed\n\nPlease ensure you have administrative privileges and entered the correct password."] := by
  have hv : 20 ≤ v ∧ v ≤ 100 := ⟨hlo, hhi⟩
  constructor
  · simp [set_new_threshold, hparse, hv]
  · simp [set_new_threshold, hparse, hv]
    decide

/-- C4 witness: concrete rejected write of 50. -/
theorem C4_rejected_no_refresh_witness :
    (set_new_threshold "50" (some "/sys/bat")
        (SubprocResult.calledProcessError "Request dismissed")).refreshed = false
      ∧ (set_new_threshold "50" (some "/sys/bat")
          (SubprocResult.calledProcessError "Request dismissed")).messages
        = [Msg.error "Execution Failed"
            "Failed to set the new threshold.\n\nReason: Request dismissed\n\nPlease ensure you have administrative privileges and entered the correct password."] :=
  C4_rejected_no_refresh "50" 50 "/sys/bat" (by decide) (by decide) (by decide)

/-- C9: when the elevation binary is absent (`FileNotFoundError`), the
handler shows the fixed missing-pkexec error, independent of the validated
value being written, and does not refresh. -/
theorem C9_missing_tool (entry : String) (v : Int) (p : String)
    (hparse : pythonInt entry = some v) (hlo : 20 ≤ v) (hhi : v ≤ 100) :
    (set_new_threshold entry (some p) SubprocResult.fileNotFound).messages
      = [Msg.error "Error"
          "The 'pkexec' command was not found.\nPlease ensure Polkit is installed on your system."]
      ∧ (set_new_threshold entry (some p) SubprocResult.fileNotFound).refreshed
        = false := by
  have hv : 20 ≤ v ∧ v ≤ 100 := ⟨hlo, hhi⟩
  constructor <;> simp [set_new_threshold, hparse, hv]

/-- C9 witness: concrete missing-tool outcome for value 50. -/
theorem C9_missing_tool_witness :
    (set_new_threshold "50" (some "/sys/bat") SubprocResult.fileNotFound).messages
      = [Msg.error "Error"
          "The 'pkexec' command was not found.\nPlease ensure Polkit is installed on your system."]
      ∧ (set_new_threshold "50" (some "/sys/bat") SubprocResult.fileNotFound).refreshed
        = false :=
  C9_missing_tool "50" 50 "/sys/bat" (by decide) (by decide) (by decide)

/-- C5: invariant over user actions — a command is spawned iff the entry
passes the `int()`-plus-range validation and the battery path is present;
in every other case no command is spawned and a notification is shown. -/
theorem C5_write_guard (entry : String) (bp : Option String)
    (outcome : SubprocResult) :
    ((set_new_threshold entry bp outcome).commands ≠ []
        ↔ (pyValidB entry = true ∧ bp ≠ none))
    ∧ ((pyValidB entry = false ∨ bp = none) →
        (set_new_threshold entry bp outcome).commands = []
          ∧ (set_new_threshold entry bp outcome).messages ≠ []) := by
  rcases h : pythonInt entry with _ | v
  · cases bp <;> simp [set_new_threshold, pyValidB, h]
  · by_cases hv : 20 ≤ v ∧ v ≤ 100
    · cases bp with
      | none =>
          simp [set_new_threshold, pyValidB, h, hv, Bool.and_eq_true,
            decide_eq_true_eq]
      | some p =>
          cases outcome <;>
            simp [set_new_threshold, pyValidB, h, hv, Bool.and_eq_true,
              decide_eq_true_eq]
    · cases bp <;> cases outcome <;>
        simp [set_new_threshold, pyValidB, h, hv, Bool.and_eq_true,
          decide_eq_true_eq]

/-- C5 witness: non-numeric entry with no path spawns nothing and notifies. -/
theorem C5_write_guard_witness :
    (set_new_threshold "abc" none SubprocResult.success).commands = []
      ∧ (set_new_threshold "abc" none SubprocResult.success).messages ≠ [] :=
  (C5_write_guard "abc" none SubprocResult.success).2 (Or.inr rfl)

/-- C6: the reader is total at its boundary — for every path and every
filesystem behaviour the rendered label is one of the four display states
(Not Found, Read Error, Unknown Error, or the stripped-content value), so no
failure escapes as an exception. -/
theorem C6_read_total (bp : Option String) (fs : String → FileRead) :
    (load_current_threshold bp fs).1 = "Current value: Not Found"
      ∨ (load_current_threshold bp fs).1 = "Current value: Read Error"
      ∨ (load_current_threshold bp fs).1 = "Current value: Unknown Error"
      ∨ ∃ s, (load_current_threshold bp fs).1
          = "Current value: " ++ pyStripStr s ++ "%" := by
  cases bp with
  | none => exact Or.inl rfl
  | some p =>
      by_cases hp : p = ""
      · left
        simp [load_current_threshold, hp]
      · rcases h : fs p with _ | s | m | m
        · left
          simp [load_current_threshold, hp, h]
        · right; right; right
          exact ⟨s, by simp [load_current_threshold, hp, h]⟩
        · right; left
          simp [load_current_threshold, hp, h]
        · right; right; left
          simp [load_current_threshold, hp, h]

/-- C7: round trip — with file content "80\n" the reader strips to "80",
which denotes the integer 80, and the label is exactly "Current value: 80%". -/
theorem C7_roundtrip :
    load_current_threshold
        (some "/sys/class/power_supply/BAT0/charge_control_end_threshold")
        (fun _ => FileRead.content "80\n")
      = ("Current value: 80%", true)
      ∧ pythonInt (pyStripStr "80\n") = some 80 := by decide

/-- C10: for any successfully read content, the label is "Current value: "
followed by the content with surrounding whitespace stripped, followed by
"%": no integer parsing happens on the read path. -/
theorem C10_label_verbatim (bp : Option String) (p s : String)
    (fs : String → FileRead) (hbp : bp = some p) (hp : p ≠ "")
    (hfs : fs p = FileRead.content s) :
    (load_current_threshold bp fs).1
      = "Current value: " ++ pyStripStr s ++ "%" := by
  subst hbp
  simp [load_current_threshold, hp, hfs]

/-- C10 witness: non-numeric content "abc\n" is displayed verbatim. -/
theorem C10_label_verbatim_witness :
    (load_current_threshold (some "/sys/bat")
        (fun _ => FileRead.content "abc\n")).1
      = "Current value: abc%" := by
  rw [C10_label_verbatim (some "/sys/bat") "/sys/bat" "abc\n"
    (fun _ => FileRead.content "abc\n") rfl (by decide) rfl]
  decide

/-- C1 counterexample: the entry " 50 " has surrounding whitespace, so the
spec-side anchored pattern rejects it, yet the code's `int()`-based
validation accepts it and a write command is spawned. -/
theorem C1_counterexample :
    (set_new_threshold " 50 "
        (some "/sys/class/power_supply/BAT0/charge_control_end_threshold")
        SubprocResult.success).commands ≠ []
      ∧ specValidateB " 50 " = false := by decide

/-- C1 (amended): a write proceeds iff the entry parses under Python `int()`
rules (optional surrounding whitespace, one optional leading sign,
underscore-grouped digits) to a value in [20, 100]; otherwise the user gets
the Invalid Input warning and no command is spawned. -/
theorem C1_python_validation (s p : String) (outcome : SubprocResult) :
    (((set_new_threshold s (some p) outcome).commands ≠ [])
        ↔ ∃ v : Int, pythonInt s = some v ∧ 20 ≤ v ∧ v ≤ 100)
    ∧ (pyValidB s = false →
        (set_new_threshold s (some p) outcome).messages
            = [Msg.warning "Invalid Input"
                "Please enter a whole number between 20 and 100."]
          ∧ (set_new_threshold s (some p) outcome).commands = []) := by
  rcases h : pythonInt s with _ | v
  · simp [set_new_threshold, pyValidB, h]
  · by_cases hv : 20 ≤ v ∧ v ≤ 100
    · cases outcome <;>
        simp [set_new_threshold, pyValidB, h, hv, Bool.and_eq_true,
          decide_eq_true_eq]
    · cases outcome <;>
        simp [set_new_threshold, pyValidB, h, hv, Bool.and_eq_true,
          decide_eq_true_eq]

/-- C1 witness: the non-numeric entry "abc" triggers the warning and no
command. -/
theorem C1_python_validation_witness :
    (set_new_threshold "abc" (some "/sys/bat") SubprocResult.success).messages
        = [Msg.warning "Invalid Input"
            "Please enter a whole number between 20 and 100."]
      ∧ (set_new_threshold "abc" (some "/sys/bat") SubprocResult.success).commands
        = [] :=
  (C1_python_validation "abc" "/sys/bat" SubprocResult.success).2 (by decide)
